import Mathlib

/-!
# Option normalisation of the redis reader-writer lock (`rwlock_opts.go`)

A shallow embedding of `Options`, `Mode` and `prepareOpts`, followed by the
properties of the normaliser.

Modelling choices:

* `time.Duration` is an `int64` count of nanoseconds and `int` is a machine
  integer. `prepareOpts` only compares these fields with constants and assigns
  constants to them; it performs no arithmetic on them. They are therefore
  embedded as `Int`, and every property proved for all `Int` holds in
  particular for every machine value (`Options.inRange` states the `int64`
  range and `prepareOpts_inRange` shows the normaliser stays inside it).
* `Mode` is the Go type `int` with three named constants; it is embedded as
  `Int`, so values outside the three constants are inputs too.
* A Go `string` is a byte sequence. `prepareOpts` only tests
  `len(opts.ReaderLockToken) == 0` and assigns a constant, so strings are
  embedded as `String` with `len` the byte count (`len_eq_zero_iff`: zero
  bytes exactly for the empty string).
* `prepareOpts` mutates the `Options` behind its pointer argument; the
  embedding is the function from the value before the call to the value after
  it, one `let` per source statement, in source order. `prepareOptsCall` is
  the same body run through the pointer, where `nil` is an argument too and
  every field read through it may panic.
-/

namespace Rwlock

/-! ## Constants of Go's `time` package (nanosecond counts) -/

/-- Go `time.Nanosecond`. -/
def Nanosecond : Int := 1

/-- Go `time.Microsecond = 1000 * Nanosecond`. -/
def Microsecond : Int := 1000 * Nanosecond

/-- Go `time.Millisecond = 1000 * Microsecond`. -/
def Millisecond : Int := 1000 * Microsecond

/-- Go `time.Second = 1000 * Millisecond`. -/
def Second : Int := 1000 * Millisecond

/-! ## `Mode` -/

/-- Go `type Mode int`. -/
abbrev Mode := Int

/-- The constant `ModeUndefined Mode = iota`, that is 0. -/
def ModeUndefined : Mode := 0

/-- The constant `ModePreferReader`, that is 1. -/
def ModePreferReader : Mode := 1

/-- The constant `ModePreferWriter`, that is 2. -/
def ModePreferWriter : Mode := 2

/-! ## `Options` -/

/-- Go `type Options struct`, fields in source order. -/
structure Options where
  LockTTL : Int
  RetryCount : Int
  RetryInterval : Int
  AppID : String
  ReaderLockToken : String
  Mode : Mode
  deriving DecidableEq, Repr

/-- Go's builtin `len` on a string: the number of bytes. -/
def len (s : String) : Nat := s.utf8ByteSize

/-! ## The constants declared inside `prepareOpts` -/

/-- The constant `ttlMin = 100 * time.Millisecond`. -/
def ttlMin : Int := 100 * Millisecond

/-- The constant `retryCountMin = 1`. -/
def retryCountMin : Int := 1

/-- The constant `retryIntervalMin = time.Millisecond`. -/
def retryIntervalMin : Int := Millisecond

/-- The constant `ttlDef = time.Second`. -/
def ttlDef : Int := Second

/-- The constant `retryCountDef = 200`. -/
def retryCountDef : Int := 200

/-- The constant `retryIntervalDef = 10 * time.Millisecond`. -/
def retryIntervalDef : Int := 10 * Millisecond

/-- The constant `readerTokenDef`. -/
def readerTokenDef : String := "read_c2d-75a1-4b5b-a6fb-b0754224c666"

/-- The constant `modeDef = ModePreferWriter`. -/
def modeDef : Mode := ModePreferWriter

/-! ## `prepareOpts` -/

/-- The function `prepareOpts(opts *Options)`: the value behind `opts` after
the call, as a function of the value before it. Each `let` is one source
statement. -/
def prepareOpts (opts : Options) : Options :=
  let opts :=
    if opts.LockTTL = 0 then { opts with LockTTL := ttlDef }
    else if opts.LockTTL < ttlMin then { opts with LockTTL := ttlMin }
    else opts
  let opts :=
    if opts.RetryCount = 0 then { opts with RetryCount := retryCountDef } else opts
  let opts :=
    if opts.RetryCount < retryCountMin then { opts with RetryCount := retryCountMin } else opts
  let opts :=
    if opts.RetryInterval = 0 then { opts with RetryInterval := retryIntervalDef } else opts
  let opts :=
    if opts.RetryInterval < retryIntervalMin then
      { opts with RetryInterval := retryIntervalMin }
    else opts
  let opts :=
    if len opts.ReaderLockToken = 0 then { opts with ReaderLockToken := readerTokenDef }
    else opts
  let opts :=
    if opts.Mode = ModeUndefined then { opts with Mode := modeDef } else opts
  opts

/-! ## The statements of `prepareOpts`, one function each

The same seven statements as separate functions; `prepareOpts` is their
composition in source order (`prepareOpts_eq_steps`, by unfolding). -/

/-- Lines 68-72: `if opts.LockTTL == 0 {..} else if opts.LockTTL < ttlMin {..}`. -/
def stmtLockTTL (opts : Options) : Options :=
  if opts.LockTTL = 0 then { opts with LockTTL := ttlDef }
  else if opts.LockTTL < ttlMin then { opts with LockTTL := ttlMin }
  else opts

/-- Lines 74-76: `if opts.RetryCount == 0 {..}`. -/
def stmtRetryCountDef (opts : Options) : Options :=
  if opts.RetryCount = 0 then { opts with RetryCount := retryCountDef } else opts

/-- Lines 77-79: `if opts.RetryCount < retryCountMin {..}`. -/
def stmtRetryCountMin (opts : Options) : Options :=
  if opts.RetryCount < retryCountMin then { opts with RetryCount := retryCountMin } else opts

/-- Lines 81-83: `if opts.RetryInterval == 0 {..}`. -/
def stmtRetryIntervalDef (opts : Options) : Options :=
  if opts.RetryInterval = 0 then { opts with RetryInterval := retryIntervalDef } else opts

/-- Lines 84-86: `if opts.RetryInterval < retryIntervalMin {..}`. -/
def stmtRetryIntervalMin (opts : Options) : Options :=
  if opts.RetryInterval < retryIntervalMin then
    { opts with RetryInterval := retryIntervalMin }
  else opts

/-- Lines 88-90: `if len(opts.ReaderLockToken) == 0 {..}`. -/
def stmtReaderLockToken (opts : Options) : Options :=
  if len opts.ReaderLockToken = 0 then { opts with ReaderLockToken := readerTokenDef }
  else opts

/-- Lines 92-94: `if opts.Mode == ModeUndefined {..}`. -/
def stmtMode (opts : Options) : Options :=
  if opts.Mode = ModeUndefined then { opts with Mode := modeDef } else opts

/-! ## Closed forms of the result, field by field (proof devices)

These are not translations of source functions: they name what the statements
above compute for one field, and `prepareOpts_eq` proves that they do. -/

/-- What lines 68-72 leave in `LockTTL`. -/
def normLockTTL (t : Int) : Int :=
  if t = 0 then ttlDef else if t < ttlMin then ttlMin else t

/-- What lines 74-79 leave in `RetryCount`. -/
def normRetryCount (n : Int) : Int :=
  if (if n = 0 then retryCountDef else n) < retryCountMin then retryCountMin
  else (if n = 0 then retryCountDef else n)

/-- What lines 81-86 leave in `RetryInterval`. -/
def normRetryInterval (t : Int) : Int :=
  if (if t = 0 then retryIntervalDef else t) < retryIntervalMin then retryIntervalMin
  else (if t = 0 then retryIntervalDef else t)

/-- What lines 88-90 leave in `ReaderLockToken`. -/
def normReaderLockToken (s : String) : String :=
  if len s = 0 then readerTokenDef else s

/-- What lines 92-94 leave in `Mode`. -/
def normMode (m : Mode) : Mode :=
  if m = ModeUndefined then modeDef else m

/-! ## Machine ranges -/

/-- The range of Go's `int64`. -/
def inInt64 (x : Int) : Prop := -(2 ^ 63) ≤ x ∧ x < 2 ^ 63

instance (x : Int) : Decidable (inInt64 x) := by
  unfold inInt64; infer_instance

/-- All integer fields of the options hold `int64` values. -/
def Options.inRange (o : Options) : Prop :=
  inInt64 o.LockTTL ∧ inInt64 o.RetryCount ∧ inInt64 o.RetryInterval ∧ inInt64 o.Mode

instance (o : Options) : Decidable o.inRange := by
  unfold Options.inRange; infer_instance

/-- Go's `int64` arithmetic keeps the low 64 bits of the exact result, read
as a signed number. -/
def wrapInt64 (x : Int) : Int := (x + 2 ^ 63) % 2 ^ 64 - 2 ^ 63

/-- Go's `*` on two `int64` values (`time.Duration(n) * d`). -/
def mulInt64 (x y : Int) : Int := wrapInt64 (x * y)

/-! ## The call through the pointer

`prepareOpts` receives `opts *Options`. A pointer is either `nil` or refers to
an `Options` value; every statement of the body starts by reading a field
through `opts`, which panics on `nil`. -/

/-- The run-time panics the body of `prepareOpts` can raise. -/
inductive Panic where
  | nilDereference
  deriving DecidableEq, Repr

/-- A `*Options`: `none` is `nil`, `some o` refers to the value `o`. -/
abbrev OptionsPtr := Option Options

/-- One statement of the body executed through the pointer: the field read
`opts.F` panics on `nil`; otherwise the statement updates the value referred
to. -/
def execStmt (stmt : Options → Options) (opts : OptionsPtr) : Except Panic OptionsPtr :=
  match opts with
  | none => Except.error Panic.nilDereference
  | some o => Except.ok (some (stmt o))

/-- The call `prepareOpts(opts)` on a pointer: the seven statements in source
order, each through the pointer. The result is the pointer with the value it
refers to after the call, or the panic. -/
def prepareOptsCall (opts : OptionsPtr) : Except Panic OptionsPtr := do
  let opts ← execStmt stmtLockTTL opts
  let opts ← execStmt stmtRetryCountDef opts
  let opts ← execStmt stmtRetryCountMin opts
  let opts ← execStmt stmtRetryIntervalDef opts
  let opts ← execStmt stmtRetryIntervalMin opts
  let opts ← execStmt stmtReaderLockToken opts
  let opts ← execStmt stmtMode opts
  return opts

/-! ## The normaliser as the specification's table writes it -/

/-- The variant of `prepareOpts` that follows the words of the specification's
table for `LockTTL` in all three numeric fields: "if zero then default, else
if below floor then floor, else unchanged". `ReaderLockToken` and `Mode` are
as in `prepareOpts`. This is the specification side of the comparison with
`prepareOpts`; it is not a translation of source code. -/
def prepareOptsExclusive (opts : Options) : Options :=
  { LockTTL :=
      if opts.LockTTL = 0 then ttlDef
      else if opts.LockTTL < ttlMin then ttlMin
      else opts.LockTTL
    RetryCount :=
      if opts.RetryCount = 0 then retryCountDef
      else if opts.RetryCount < retryCountMin then retryCountMin
      else opts.RetryCount
    RetryInterval :=
      if opts.RetryInterval = 0 then retryIntervalDef
      else if opts.RetryInterval < retryIntervalMin then retryIntervalMin
      else opts.RetryInterval
    AppID := opts.AppID
    ReaderLockToken :=
      if len opts.ReaderLockToken = 0 then readerTokenDef else opts.ReaderLockToken
    Mode := if opts.Mode = ModeUndefined then modeDef else opts.Mode }

/-! ## Helper lemmas: the result of `prepareOpts`, field by field -/

/-- A string has zero bytes exactly when it is the empty string. -/
theorem len_eq_zero_iff (s : String) : len s = 0 ↔ s = "" := by
  obtain ⟨cs⟩ := s
  cases cs with
  | nil => exact ⟨fun _ => rfl, fun _ => rfl⟩
  | cons c cs =>
    constructor
    · intro h
      have hpos := Char.utf8Size_pos c
      simp only [len, String.utf8ByteSize, String.utf8ByteSize.go] at h
      omega
    · intro h
      exact absurd (congrArg String.data h) (by simp)

/-- The body of `prepareOpts` is the composition of its seven statements. -/
theorem prepareOpts_eq_steps (o : Options) :
    prepareOpts o =
      stmtMode (stmtReaderLockToken (stmtRetryIntervalMin (stmtRetryIntervalDef
        (stmtRetryCountMin (stmtRetryCountDef (stmtLockTTL o)))))) := rfl

theorem stmtLockTTL_mk (a b c : Int) (d e : String) (f : Mode) :
    stmtLockTTL ⟨a, b, c, d, e, f⟩ = ⟨normLockTTL a, b, c, d, e, f⟩ := by
  unfold stmtLockTTL normLockTTL
  split_ifs <;> rfl

theorem stmtRetryCount_mk (a b c : Int) (d e : String) (f : Mode) :
    stmtRetryCountMin (stmtRetryCountDef ⟨a, b, c, d, e, f⟩)
      = ⟨a, normRetryCount b, c, d, e, f⟩ := by
  unfold stmtRetryCountDef normRetryCount
  by_cases h : b = 0
  · simp only [h, if_true]
    unfold stmtRetryCountMin
    split_ifs <;> rfl
  · simp only [h, if_false]
    unfold stmtRetryCountMin
    split_ifs <;> rfl

theorem stmtRetryInterval_mk (a b c : Int) (d e : String) (f : Mode) :
    stmtRetryIntervalMin (stmtRetryIntervalDef ⟨a, b, c, d, e, f⟩)
      = ⟨a, b, normRetryInterval c, d, e, f⟩ := by
  unfold stmtRetryIntervalDef normRetryInterval
  by_cases h : c = 0
  · simp only [h, if_true]
    unfold stmtRetryIntervalMin
    split_ifs <;> rfl
  · simp only [h, if_false]
    unfold stmtRetryIntervalMin
    split_ifs <;> rfl

theorem stmtReaderLockToken_mk (a b c : Int) (d e : String) (f : Mode) :
    stmtReaderLockToken ⟨a, b, c, d, e, f⟩ = ⟨a, b, c, d, normReaderLockToken e, f⟩ := by
  unfold stmtReaderLockToken normReaderLockToken
  split_ifs <;> rfl

theorem stmtMode_mk (a b c : Int) (d e : String) (f : Mode) :
    stmtMode ⟨a, b, c, d, e, f⟩ = ⟨a, b, c, d, e, normMode f⟩ := by
  unfold stmtMode normMode
  split_ifs <;> rfl

/-- The result of `prepareOpts`, field by field. -/
theorem prepareOpts_eq (o : Options) :
    prepareOpts o =
      ⟨normLockTTL o.LockTTL, normRetryCount o.RetryCount, normRetryInterval o.RetryInterval,
        o.AppID, normReaderLockToken o.ReaderLockToken, normMode o.Mode⟩ := by
  obtain ⟨a, b, c, d, e, f⟩ := o
  rw [prepareOpts_eq_steps, stmtLockTTL_mk, stmtRetryCount_mk, stmtRetryInterval_mk,
    stmtReaderLockToken_mk, stmtMode_mk]

/-! ### The constants in nanoseconds -/

theorem ttlMin_val : ttlMin = 100000000 := by decide
theorem ttlDef_val : ttlDef = 1000000000 := by decide
theorem retryCountMin_val : retryCountMin = 1 := rfl
theorem retryCountDef_val : retryCountDef = 200 := rfl
theorem retryIntervalMin_val : retryIntervalMin = 1000000 := by decide
theorem retryIntervalDef_val : retryIntervalDef = 10000000 := by decide

/-! ### Projections of the result -/

theorem prepareOpts_LockTTL (o : Options) :
    (prepareOpts o).LockTTL =
      if o.LockTTL = 0 then 1000000000
      else if o.LockTTL < 100000000 then 100000000 else o.LockTTL := by
  rw [prepareOpts_eq]
  simp only [normLockTTL, ttlMin_val, ttlDef_val]

theorem prepareOpts_RetryCount (o : Options) :
    (prepareOpts o).RetryCount =
      if o.RetryCount = 0 then 200 else if o.RetryCount < 1 then 1 else o.RetryCount := by
  rw [prepareOpts_eq]
  simp only [normRetryCount, retryCountMin_val, retryCountDef_val]
  split_ifs <;> omega

theorem prepareOpts_RetryInterval (o : Options) :
    (prepareOpts o).RetryInterval =
      if o.RetryInterval = 0 then 10000000
      else if o.RetryInterval < 1000000 then 1000000 else o.RetryInterval := by
  rw [prepareOpts_eq]
  simp only [normRetryInterval, retryIntervalMin_val, retryIntervalDef_val]
  split_ifs <;> omega

theorem prepareOpts_AppID (o : Options) : (prepareOpts o).AppID = o.AppID := by
  rw [prepareOpts_eq]

theorem prepareOpts_ReaderLockToken (o : Options) :
    (prepareOpts o).ReaderLockToken =
      if o.ReaderLockToken = "" then readerTokenDef else o.ReaderLockToken := by
  rw [prepareOpts_eq]
  simp only [normReaderLockToken, len_eq_zero_iff]

theorem prepareOpts_Mode (o : Options) :
    (prepareOpts o).Mode = if o.Mode = 0 then 2 else o.Mode := by
  rw [prepareOpts_eq]
  simp only [normMode, ModeUndefined, modeDef, ModePreferWriter]

/-- Two options are equal when their six fields are. -/
theorem Options.ext_fields {x y : Options} (h1 : x.LockTTL = y.LockTTL)
    (h2 : x.RetryCount = y.RetryCount) (h3 : x.RetryInterval = y.RetryInterval)
    (h4 : x.AppID = y.AppID) (h5 : x.ReaderLockToken = y.ReaderLockToken)
    (h6 : x.Mode = y.Mode) : x = y := by
  cases x; cases y; simp only [Options.mk.injEq]; exact ⟨h1, h2, h3, h4, h5, h6⟩

/-- The default reader token is not the empty string. -/
theorem readerTokenDef_ne_empty : readerTokenDef ≠ "" := by decide

/-- The normaliser maps `int64` fields to `int64` fields. -/
theorem prepareOpts_inRange (o : Options) (h : o.inRange) : (prepareOpts o).inRange := by
  obtain ⟨h1, h2, h3, h4⟩ := h
  unfold inInt64 at h1 h2 h3 h4
  unfold Options.inRange inInt64
  rw [prepareOpts_LockTTL, prepareOpts_RetryCount, prepareOpts_RetryInterval, prepareOpts_Mode]
  refine ⟨?_, ?_, ?_, ?_⟩ <;> split_ifs <;> omega

/-! ## The properties of the normaliser -/

/-- C1: for every input `Options` (zero and negative values included) the
result of `prepareOpts` has `LockTTL >= 100ms` (100_000_000 ns),
`RetryCount >= 1` and `RetryInterval >= 1ms` (1_000_000 ns). -/
theorem prepareOpts_floors (o : Options) :
    100000000 ≤ (prepareOpts o).LockTTL ∧ 1 ≤ (prepareOpts o).RetryCount ∧
      1000000 ≤ (prepareOpts o).RetryInterval := by
  rw [prepareOpts_LockTTL, prepareOpts_RetryCount, prepareOpts_RetryInterval]
  refine ⟨?_, ?_, ?_⟩ <;> split_ifs <;> omega

/-- C2: the `LockTTL` rule of `prepareOpts`: an input `LockTTL` of 0 gives
exactly 1s (1_000_000_000 ns); an input with `0 < LockTTL < 100ms` gives
exactly 100ms; an input with `LockTTL >= 100ms` is kept. -/
theorem prepareOpts_LockTTL_rule (o : Options) :
    (o.LockTTL = 0 → (prepareOpts o).LockTTL = 1000000000) ∧
    (0 < o.LockTTL → o.LockTTL < 100000000 → (prepareOpts o).LockTTL = 100000000) ∧
    (100000000 ≤ o.LockTTL → (prepareOpts o).LockTTL = o.LockTTL) := by
  rw [prepareOpts_LockTTL]
  refine ⟨?_, ?_, ?_⟩ <;> intros <;> split_ifs <;> omega

/-- Witness of C2: the three cases at `LockTTL` 0, 50ms and 3s. -/
theorem prepareOpts_LockTTL_rule_witness :
    (prepareOpts ⟨0, 5, 7, "a", "t", 1⟩).LockTTL = 1000000000 ∧
    (prepareOpts ⟨50000000, 5, 7, "a", "t", 1⟩).LockTTL = 100000000 ∧
    (prepareOpts ⟨3000000000, 5, 7, "a", "t", 1⟩).LockTTL = 3000000000 :=
  ⟨(prepareOpts_LockTTL_rule ⟨0, 5, 7, "a", "t", 1⟩).1 rfl,
   (prepareOpts_LockTTL_rule ⟨50000000, 5, 7, "a", "t", 1⟩).2.1 (by decide) (by decide),
   (prepareOpts_LockTTL_rule ⟨3000000000, 5, 7, "a", "t", 1⟩).2.2 (by decide)⟩

/-- C3: the `RetryCount` rule of `prepareOpts`: an input `RetryCount` of 0
gives exactly 200; an input below 1 gives a result of at least 1, and a
negative input gives exactly 1; an input of at least 1 is kept. -/
theorem prepareOpts_RetryCount_rule (o : Options) :
    (o.RetryCount = 0 → (prepareOpts o).RetryCount = 200) ∧
    (o.RetryCount < 1 → 1 ≤ (prepareOpts o).RetryCount) ∧
    (o.RetryCount < 0 → (prepareOpts o).RetryCount = 1) ∧
    (1 ≤ o.RetryCount → (prepareOpts o).RetryCount = o.RetryCount) := by
  rw [prepareOpts_RetryCount]
  refine ⟨?_, ?_, ?_, ?_⟩ <;> intros <;> split_ifs <;> omega

/-- Witness of C3: the cases at `RetryCount` 0, -5 and 3. -/
theorem prepareOpts_RetryCount_rule_witness :
    (prepareOpts ⟨0, 0, 0, "a", "", 0⟩).RetryCount = 200 ∧
    1 ≤ (prepareOpts ⟨0, -5, 0, "a", "", 0⟩).RetryCount ∧
    (prepareOpts ⟨0, -5, 0, "a", "", 0⟩).RetryCount = 1 ∧
    (prepareOpts ⟨0, 3, 0, "a", "", 0⟩).RetryCount = 3 :=
  ⟨(prepareOpts_RetryCount_rule ⟨0, 0, 0, "a", "", 0⟩).1 rfl,
   (prepareOpts_RetryCount_rule ⟨0, -5, 0, "a", "", 0⟩).2.1 (by decide),
   (prepareOpts_RetryCount_rule ⟨0, -5, 0, "a", "", 0⟩).2.2.1 (by decide),
   (prepareOpts_RetryCount_rule ⟨0, 3, 0, "a", "", 0⟩).2.2.2 (by decide)⟩

/-- C4: the `RetryInterval` rule of `prepareOpts`: an input `RetryInterval`
of 0 gives exactly 10ms (10_000_000 ns); an input with
`0 < RetryInterval < 1ms` gives exactly 1ms (1_000_000 ns); an input with
`RetryInterval >= 1ms` is kept. -/
theorem prepareOpts_RetryInterval_rule (o : Options) :
    (o.RetryInterval = 0 → (prepareOpts o).RetryInterval = 10000000) ∧
    (0 < o.RetryInterval → o.RetryInterval < 1000000 →
      (prepareOpts o).RetryInterval = 1000000) ∧
    (1000000 ≤ o.RetryInterval → (prepareOpts o).RetryInterval = o.RetryInterval) := by
  rw [prepareOpts_RetryInterval]
  refine ⟨?_, ?_, ?_⟩ <;> intros <;> split_ifs <;> omega

/-- Witness of C4: the three cases at `RetryInterval` 0, 500µs and 25ms. -/
theorem prepareOpts_RetryInterval_rule_witness :
    (prepareOpts ⟨1, 1, 0, "", "", 2⟩).RetryInterval = 10000000 ∧
    (prepareOpts ⟨1, 1, 500000, "", "", 2⟩).RetryInterval = 1000000 ∧
    (prepareOpts ⟨1, 1, 25000000, "", "", 2⟩).RetryInterval = 25000000 :=
  ⟨(prepareOpts_RetryInterval_rule ⟨1, 1, 0, "", "", 2⟩).1 rfl,
   (prepareOpts_RetryInterval_rule ⟨1, 1, 500000, "", "", 2⟩).2.1 (by decide) (by decide),
   (prepareOpts_RetryInterval_rule ⟨1, 1, 25000000, "", "", 2⟩).2.2 (by decide)⟩

/-- C5: the `ReaderLockToken` rule of `prepareOpts`: an empty input token
gives the fixed constant "read_c2d-75a1-4b5b-a6fb-b0754224c666", whatever the
other fields are; a non-empty input token is kept. -/
theorem prepareOpts_ReaderLockToken_rule (o : Options) :
    (o.ReaderLockToken = "" →
      (prepareOpts o).ReaderLockToken = "read_c2d-75a1-4b5b-a6fb-b0754224c666") ∧
    (o.ReaderLockToken ≠ "" → (prepareOpts o).ReaderLockToken = o.ReaderLockToken) := by
  rw [prepareOpts_ReaderLockToken]
  constructor
  · intro h
    rw [if_pos h]
    rfl
  · intro h
    rw [if_neg h]

/-- Witness of C5: an empty token and the token "grp". -/
theorem prepareOpts_ReaderLockToken_rule_witness :
    (prepareOpts ⟨-3, 9, 0, "x", "", 7⟩).ReaderLockToken
      = "read_c2d-75a1-4b5b-a6fb-b0754224c666" ∧
    (prepareOpts ⟨-3, 9, 0, "x", "grp", 7⟩).ReaderLockToken = "grp" :=
  ⟨(prepareOpts_ReaderLockToken_rule ⟨-3, 9, 0, "x", "", 7⟩).1 rfl,
   (prepareOpts_ReaderLockToken_rule ⟨-3, 9, 0, "x", "grp", 7⟩).2 (by decide)⟩

/-- C6: the `Mode` rule of `prepareOpts`: `ModeUndefined` becomes
`ModePreferWriter`; `ModePreferReader` stays `ModePreferReader`;
`ModePreferWriter` stays `ModePreferWriter`. -/
theorem prepareOpts_Mode_rule (o : Options) :
    (o.Mode = ModeUndefined → (prepareOpts o).Mode = ModePreferWriter) ∧
    (o.Mode = ModePreferReader → (prepareOpts o).Mode = ModePreferReader) ∧
    (o.Mode = ModePreferWriter → (prepareOpts o).Mode = ModePreferWriter) := by
  rw [prepareOpts_Mode]
  unfold ModeUndefined ModePreferReader ModePreferWriter
  refine ⟨?_, ?_, ?_⟩ <;> intro h <;> rw [h] <;> rfl

/-- Witness of C6: the three named modes. -/
theorem prepareOpts_Mode_rule_witness :
    (prepareOpts ⟨0, 0, 0, "", "", ModeUndefined⟩).Mode = ModePreferWriter ∧
    (prepareOpts ⟨0, 0, 0, "", "", ModePreferReader⟩).Mode = ModePreferReader ∧
    (prepareOpts ⟨0, 0, 0, "", "", ModePreferWriter⟩).Mode = ModePreferWriter :=
  ⟨(prepareOpts_Mode_rule ⟨0, 0, 0, "", "", ModeUndefined⟩).1 rfl,
   (prepareOpts_Mode_rule ⟨0, 0, 0, "", "", ModePreferReader⟩).2.1 rfl,
   (prepareOpts_Mode_rule ⟨0, 0, 0, "", "", ModePreferWriter⟩).2.2 rfl⟩

/-- C7: `prepareOpts` never alters `AppID`: for every input, empty `AppID` or
not and whatever the other fields, the result `AppID` is the input `AppID`. -/
theorem prepareOpts_keeps_AppID (o : Options) : (prepareOpts o).AppID = o.AppID := by
  rw [prepareOpts_eq]

/-- C8: `prepareOpts` is idempotent on all six fields, for every input
(negative durations and counts and `Mode` values outside the three constants
included). -/
theorem prepareOpts_idempotent (x : Options) :
    prepareOpts (prepareOpts x) = prepareOpts x := by
  apply Options.ext_fields
  · rw [prepareOpts_LockTTL (prepareOpts x), prepareOpts_LockTTL x]
    split_ifs <;> omega
  · rw [prepareOpts_RetryCount (prepareOpts x), prepareOpts_RetryCount x]
    split_ifs <;> omega
  · rw [prepareOpts_RetryInterval (prepareOpts x), prepareOpts_RetryInterval x]
    split_ifs <;> omega
  · rw [prepareOpts_AppID, prepareOpts_AppID]
  · rw [prepareOpts_ReaderLockToken (prepareOpts x), prepareOpts_ReaderLockToken x]
    by_cases h : x.ReaderLockToken = ""
    · rw [if_pos h, if_neg readerTokenDef_ne_empty]
    · rw [if_neg h, if_neg h]
  · rw [prepareOpts_Mode (prepareOpts x), prepareOpts_Mode x]
    by_cases h : x.Mode = 0
    · simp only [if_pos h]
      rfl
    · simp only [if_neg h]

/-- C9: the all-defaults scenario: for every `AppID` a, `prepareOpts` maps
`{LockTTL:0, RetryCount:0, RetryInterval:0, ReaderLockToken:"",
Mode:ModeUndefined, AppID:a}` to `{LockTTL:1s, RetryCount:200,
RetryInterval:10ms, ReaderLockToken:"read_c2d-75a1-4b5b-a6fb-b0754224c666",
Mode:ModePreferWriter, AppID:a}`, and `ModeUndefined` is the zero value of
`Mode`. -/
theorem prepareOpts_all_defaults (a : String) :
    prepareOpts { LockTTL := 0, RetryCount := 0, RetryInterval := 0, AppID := a,
                  ReaderLockToken := "", Mode := ModeUndefined }
      = { LockTTL := 1000000000, RetryCount := 200, RetryInterval := 10000000, AppID := a,
          ReaderLockToken := "read_c2d-75a1-4b5b-a6fb-b0754224c666",
          Mode := ModePreferWriter } ∧
    ModeUndefined = 0 := by
  exact ⟨rfl, rfl⟩

/-- C10, as stated, fails: on `{LockTTL:50ms, RetryCount:-5,
RetryInterval:500µs, Mode:ModePreferReader}` with `AppID` and
`ReaderLockToken` empty, the result of `prepareOpts` is not the record
`{LockTTL:100ms, RetryCount:1, RetryInterval:1ms, Mode:ModePreferReader}` with
`AppID` and `ReaderLockToken` empty. -/
theorem prepareOpts_clamping_scenario_unlisted_not_zero :
    prepareOpts { LockTTL := 50000000, RetryCount := -5, RetryInterval := 500000,
                  AppID := "", ReaderLockToken := "", Mode := ModePreferReader }
      ≠ { LockTTL := 100000000, RetryCount := 1, RetryInterval := 1000000,
          AppID := "", ReaderLockToken := "", Mode := ModePreferReader } := by
  decide

/-- C10, amended: on `{LockTTL:50ms, RetryCount:-5, RetryInterval:500µs,
Mode:ModePreferReader}` with `AppID` and `ReaderLockToken` empty, the result
of `prepareOpts` is `{LockTTL:100ms, RetryCount:1, RetryInterval:1ms,
Mode:ModePreferReader}` with `AppID` still empty and `ReaderLockToken` set to
the default token "read_c2d-75a1-4b5b-a6fb-b0754224c666". -/
theorem prepareOpts_clamping_scenario :
    prepareOpts { LockTTL := 50000000, RetryCount := -5, RetryInterval := 500000,
                  AppID := "", ReaderLockToken := "", Mode := ModePreferReader }
      = { LockTTL := 100000000, RetryCount := 1, RetryInterval := 1000000,
          AppID := "", ReaderLockToken := "read_c2d-75a1-4b5b-a6fb-b0754224c666",
          Mode := ModePreferReader } := by
  decide

/-- C11: negative inputs are clamped to the floor, not given the default: a
negative `LockTTL` gives 100ms (not 1s), a negative `RetryCount` gives 1 (not
200), a negative `RetryInterval` gives 1ms (not 10ms). -/
theorem prepareOpts_negative_clamped (o : Options) :
    (o.LockTTL < 0 →
      (prepareOpts o).LockTTL = 100000000 ∧ (prepareOpts o).LockTTL ≠ 1000000000) ∧
    (o.RetryCount < 0 →
      (prepareOpts o).RetryCount = 1 ∧ (prepareOpts o).RetryCount ≠ 200) ∧
    (o.RetryInterval < 0 →
      (prepareOpts o).RetryInterval = 1000000 ∧ (prepareOpts o).RetryInterval ≠ 10000000) := by
  rw [prepareOpts_LockTTL, prepareOpts_RetryCount, prepareOpts_RetryInterval]
  refine ⟨?_, ?_, ?_⟩ <;> intro h <;> split_ifs <;> omega

/-- Witness of C11: the input with `LockTTL` -1, `RetryCount` -2 and
`RetryInterval` -3. -/
theorem prepareOpts_negative_clamped_witness :
    ((prepareOpts ⟨-1, -2, -3, "", "", 0⟩).LockTTL = 100000000 ∧
      (prepareOpts ⟨-1, -2, -3, "", "", 0⟩).LockTTL ≠ 1000000000) ∧
    ((prepareOpts ⟨-1, -2, -3, "", "", 0⟩).RetryCount = 1 ∧
      (prepareOpts ⟨-1, -2, -3, "", "", 0⟩).RetryCount ≠ 200) ∧
    ((prepareOpts ⟨-1, -2, -3, "", "", 0⟩).RetryInterval = 1000000 ∧
      (prepareOpts ⟨-1, -2, -3, "", "", 0⟩).RetryInterval ≠ 10000000) :=
  ⟨(prepareOpts_negative_clamped ⟨-1, -2, -3, "", "", 0⟩).1 (by decide),
   (prepareOpts_negative_clamped ⟨-1, -2, -3, "", "", 0⟩).2.1 (by decide),
   (prepareOpts_negative_clamped ⟨-1, -2, -3, "", "", 0⟩).2.2 (by decide)⟩

/-- C12, as stated, fails: on the input `Mode` 3, a value of the Go type
`Mode` outside the three constants, the result `Mode` is 3, which is neither
`ModePreferReader` nor `ModePreferWriter`. -/
theorem prepareOpts_Mode_unnamed_not_resolved :
    ¬ ((prepareOpts ⟨0, 0, 0, "", "", 3⟩).Mode ≠ ModeUndefined ∧
        ((prepareOpts ⟨0, 0, 0, "", "", 3⟩).Mode = ModePreferReader ∨
         (prepareOpts ⟨0, 0, 0, "", "", 3⟩).Mode = ModePreferWriter)) := by
  decide

/-- C12, amended: for every input the result `Mode` is never `ModeUndefined`;
when the input `Mode` is one of the three named constants the result is
`ModePreferReader` or `ModePreferWriter`. -/
theorem prepareOpts_Mode_valid (o : Options) :
    (prepareOpts o).Mode ≠ ModeUndefined ∧
    ((o.Mode = ModeUndefined ∨ o.Mode = ModePreferReader ∨ o.Mode = ModePreferWriter) →
      ((prepareOpts o).Mode = ModePreferReader ∨ (prepareOpts o).Mode = ModePreferWriter)) := by
  rw [prepareOpts_Mode]
  unfold ModeUndefined ModePreferReader ModePreferWriter
  constructor
  · by_cases h : o.Mode = 0
    · rw [if_pos h]; decide
    · rw [if_neg h]; exact h
  · rintro (h | h | h) <;> rw [h]
    · right; rfl
    · left; rfl
    · right; rfl

/-- Witness of C12 amended: the input `Mode` `ModeUndefined`. -/
theorem prepareOpts_Mode_valid_witness :
    (prepareOpts ⟨0, 0, 0, "", "", ModeUndefined⟩).Mode = ModePreferReader ∨
    (prepareOpts ⟨0, 0, 0, "", "", ModeUndefined⟩).Mode = ModePreferWriter :=
  (prepareOpts_Mode_valid ⟨0, 0, 0, "", "", ModeUndefined⟩).2 (Or.inl rfl)

/-- C13, as stated, fails: the call of `prepareOpts` on the `nil` pointer
panics at the first field read. -/
theorem prepareOptsCall_nil_panics :
    prepareOptsCall none = Except.error Panic.nilDereference := by
  rfl

/-- C13, amended: for every non-nil argument, a reference to any `Options`
value whatsoever, the call of `prepareOpts` completes normally, without a
panic, and leaves the normalised value behind the pointer. -/
theorem prepareOptsCall_some_ok (o : Options) :
    prepareOptsCall (some o) = Except.ok (some (prepareOpts o)) := by
  rfl

/-- C14: field independence of `prepareOpts`: for every two inputs a and b
and each of the six fields, if a and b agree on that field then so do the
results, whatever the other five fields are. -/
theorem prepareOpts_field_independence (a b : Options) :
    (a.LockTTL = b.LockTTL → (prepareOpts a).LockTTL = (prepareOpts b).LockTTL) ∧
    (a.RetryCount = b.RetryCount → (prepareOpts a).RetryCount = (prepareOpts b).RetryCount) ∧
    (a.RetryInterval = b.RetryInterval →
      (prepareOpts a).RetryInterval = (prepareOpts b).RetryInterval) ∧
    (a.AppID = b.AppID → (prepareOpts a).AppID = (prepareOpts b).AppID) ∧
    (a.ReaderLockToken = b.ReaderLockToken →
      (prepareOpts a).ReaderLockToken = (prepareOpts b).ReaderLockToken) ∧
    (a.Mode = b.Mode → (prepareOpts a).Mode = (prepareOpts b).Mode) := by
  refine ⟨?_, ?_, ?_, ?_, ?_, ?_⟩ <;> intro h
  · rw [prepareOpts_LockTTL a, prepareOpts_LockTTL b, h]
  · rw [prepareOpts_RetryCount a, prepareOpts_RetryCount b, h]
  · rw [prepareOpts_RetryInterval a, prepareOpts_RetryInterval b, h]
  · rw [prepareOpts_AppID a, prepareOpts_AppID b, h]
  · rw [prepareOpts_ReaderLockToken a, prepareOpts_ReaderLockToken b, h]
  · rw [prepareOpts_Mode a, prepareOpts_Mode b, h]

/-- Witness of C14: two inputs that agree on `LockTTL`, or on `Mode`, and
differ in every other field. -/
theorem prepareOpts_field_independence_witness :
    (prepareOpts ⟨7, 0, -4, "x", "", 0⟩).LockTTL
      = (prepareOpts ⟨7, 12, 9000000, "y", "grp", 1⟩).LockTTL ∧
    (prepareOpts ⟨7, 0, -4, "x", "", 0⟩).Mode
      = (prepareOpts ⟨-1, 12, 9000000, "y", "grp", 0⟩).Mode :=
  ⟨(prepareOpts_field_independence ⟨7, 0, -4, "x", "", 0⟩
      ⟨7, 12, 9000000, "y", "grp", 1⟩).1 rfl,
   (prepareOpts_field_independence ⟨7, 0, -4, "x", "", 0⟩
      ⟨-1, 12, 9000000, "y", "grp", 0⟩).2.2.2.2.2 rfl⟩

/-- C15: `prepareOpts` is not injective: for every `AppID` a the unset input
`{LockTTL:0, RetryCount:0, RetryInterval:0, ReaderLockToken:"",
Mode:ModeUndefined, AppID:a}` and the explicit input `{LockTTL:1s,
RetryCount:200, RetryInterval:10ms,
ReaderLockToken:"read_c2d-75a1-4b5b-a6fb-b0754224c666",
Mode:ModePreferWriter, AppID:a}` are distinct and have equal results. -/
theorem prepareOpts_not_injective :
    (¬ Function.Injective prepareOpts) ∧
    ∀ a : String,
      ({ LockTTL := 0, RetryCount := 0, RetryInterval := 0, AppID := a,
         ReaderLockToken := "", Mode := ModeUndefined } : Options)
        ≠ { LockTTL := 1000000000, RetryCount := 200, RetryInterval := 10000000, AppID := a,
            ReaderLockToken := "read_c2d-75a1-4b5b-a6fb-b0754224c666",
            Mode := ModePreferWriter } ∧
      prepareOpts { LockTTL := 0, RetryCount := 0, RetryInterval := 0, AppID := a,
                    ReaderLockToken := "", Mode := ModeUndefined }
        = prepareOpts { LockTTL := 1000000000, RetryCount := 200, RetryInterval := 10000000,
                        AppID := a,
                        ReaderLockToken := "read_c2d-75a1-4b5b-a6fb-b0754224c666",
                        Mode := ModePreferWriter } := by
  have key : ∀ a : String,
      (⟨0, 0, 0, a, "", ModeUndefined⟩ : Options)
        ≠ ⟨1000000000, 200, 10000000, a, "read_c2d-75a1-4b5b-a6fb-b0754224c666",
            ModePreferWriter⟩ ∧
      prepareOpts ⟨0, 0, 0, a, "", ModeUndefined⟩
        = prepareOpts ⟨1000000000, 200, 10000000, a, "read_c2d-75a1-4b5b-a6fb-b0754224c666",
            ModePreferWriter⟩ := by
    intro a
    constructor
    · intro h
      have h1 : (0 : Int) = 200 := congrArg Options.RetryCount h
      exact absurd h1 (by decide)
    · rfl
  refine ⟨?_, key⟩
  intro hinj
  exact (key "").1 (hinj (key "").2)

/-- C16: the two sequential checks of the code for `RetryCount` and for
`RetryInterval` compute the same result as the exclusive form "if zero then
default, else if below floor then floor, else unchanged": `prepareOpts`
equals `prepareOptsExclusive` on every input, and each default (1s, 200,
10ms) is at least its floor (100ms, 1, 1ms). -/
theorem prepareOpts_eq_prepareOptsExclusive :
    (∀ o : Options, prepareOpts o = prepareOptsExclusive o) ∧
    ttlMin ≤ ttlDef ∧ retryCountMin ≤ retryCountDef ∧ retryIntervalMin ≤ retryIntervalDef := by
  refine ⟨?_, by decide, by decide, by decide⟩
  intro o
  rw [prepareOpts_eq]
  unfold prepareOptsExclusive normLockTTL normRetryCount normRetryInterval
    normReaderLockToken normMode
  simp only [retryCountMin_val, retryCountDef_val, retryIntervalMin_val, retryIntervalDef_val]
  apply Options.ext_fields
  · rfl
  · show (if (if o.RetryCount = 0 then (200 : Int) else o.RetryCount) < 1 then (1 : Int)
        else (if o.RetryCount = 0 then 200 else o.RetryCount))
      = if o.RetryCount = 0 then 200 else if o.RetryCount < 1 then 1 else o.RetryCount
    split_ifs <;> omega
  · show (if (if o.RetryInterval = 0 then (10000000 : Int) else o.RetryInterval) < 1000000
        then (1000000 : Int)
        else (if o.RetryInterval = 0 then 10000000 else o.RetryInterval))
      = if o.RetryInterval = 0 then 10000000
        else if o.RetryInterval < 1000000 then 1000000 else o.RetryInterval
    split_ifs <;> omega
  · rfl
  · rfl
  · rfl

/-- C17: `prepareOpts` never lowers a numeric parameter: the result `LockTTL`,
`RetryCount` and `RetryInterval` are each at least the input value. -/
theorem prepareOpts_never_lowers (o : Options) :
    o.LockTTL ≤ (prepareOpts o).LockTTL ∧ o.RetryCount ≤ (prepareOpts o).RetryCount ∧
      o.RetryInterval ≤ (prepareOpts o).RetryInterval := by
  rw [prepareOpts_LockTTL, prepareOpts_RetryCount, prepareOpts_RetryInterval]
  refine ⟨?_, ?_, ?_⟩ <;> split_ifs <;> omega

/-- C18: the fixed points of `prepareOpts`: `prepareOpts x = x` exactly when
`x.LockTTL >= 100ms`, `x.RetryCount >= 1`, `x.RetryInterval >= 1ms`,
`x.ReaderLockToken` is non-empty and `x.Mode` is not `ModeUndefined`. -/
theorem prepareOpts_fixed_point_iff (x : Options) :
    prepareOpts x = x ↔
      (100000000 ≤ x.LockTTL ∧ 1 ≤ x.RetryCount ∧ 1000000 ≤ x.RetryInterval ∧
        x.ReaderLockToken ≠ "" ∧ x.Mode ≠ ModeUndefined) := by
  constructor
  · intro h
    have h1 := congrArg Options.LockTTL h
    have h2 := congrArg Options.RetryCount h
    have h3 := congrArg Options.RetryInterval h
    have h5 := congrArg Options.ReaderLockToken h
    have h6 := congrArg Options.Mode h
    rw [prepareOpts_LockTTL] at h1
    rw [prepareOpts_RetryCount] at h2
    rw [prepareOpts_RetryInterval] at h3
    rw [prepareOpts_ReaderLockToken] at h5
    rw [prepareOpts_Mode] at h6
    refine ⟨?_, ?_, ?_, ?_, ?_⟩
    · split_ifs at h1 <;> omega
    · split_ifs at h2 <;> omega
    · split_ifs at h3 <;> omega
    · intro he
      rw [if_pos he] at h5
      exact readerTokenDef_ne_empty (h5.trans he)
    · intro hm
      have hm0 : x.Mode = 0 := hm
      rw [if_pos hm0, hm0] at h6
      exact absurd h6 (by decide)
  · rintro ⟨h1, h2, h3, h5, h6⟩
    have hm0 : ¬ x.Mode = 0 := h6
    apply Options.ext_fields
    · rw [prepareOpts_LockTTL]
      split_ifs <;> omega
    · rw [prepareOpts_RetryCount]
      split_ifs <;> omega
    · rw [prepareOpts_RetryInterval]
      split_ifs <;> omega
    · rw [prepareOpts_AppID]
    · rw [prepareOpts_ReaderLockToken, if_neg h5]
    · rw [prepareOpts_Mode, if_neg hm0]

/-- C19: for the all-zero `Options` the result of `prepareOpts` has
`LockTTL < RetryCount * RetryInterval` in exact integer nanoseconds
(1_000_000_000 < 200 * 10_000_000), and the `int64` product does not
overflow: it lies in the `int64` range and the wrapping product equals the
exact one. -/
theorem prepareOpts_defaults_ttl_lt_retry_window :
    (prepareOpts ⟨0, 0, 0, "", "", 0⟩).LockTTL
      < (prepareOpts ⟨0, 0, 0, "", "", 0⟩).RetryCount
          * (prepareOpts ⟨0, 0, 0, "", "", 0⟩).RetryInterval ∧
    (prepareOpts ⟨0, 0, 0, "", "", 0⟩).LockTTL = 1000000000 ∧
    (prepareOpts ⟨0, 0, 0, "", "", 0⟩).RetryCount
      * (prepareOpts ⟨0, 0, 0, "", "", 0⟩).RetryInterval = 200 * 10000000 ∧
    inInt64 ((prepareOpts ⟨0, 0, 0, "", "", 0⟩).RetryCount
      * (prepareOpts ⟨0, 0, 0, "", "", 0⟩).RetryInterval) ∧
    mulInt64 (prepareOpts ⟨0, 0, 0, "", "", 0⟩).RetryCount
        (prepareOpts ⟨0, 0, 0, "", "", 0⟩).RetryInterval
      = (prepareOpts ⟨0, 0, 0, "", "", 0⟩).RetryCount
          * (prepareOpts ⟨0, 0, 0, "", "", 0⟩).RetryInterval := by
  have hc : (prepareOpts ⟨0, 0, 0, "", "", 0⟩).RetryCount = 200 := by
    rw [prepareOpts_RetryCount]; rfl
  have hi : (prepareOpts ⟨0, 0, 0, "", "", 0⟩).RetryInterval = 10000000 := by
    rw [prepareOpts_RetryInterval]; rfl
  have ht : (prepareOpts ⟨0, 0, 0, "", "", 0⟩).LockTTL = 1000000000 := by
    rw [prepareOpts_LockTTL]; rfl
  rw [hc, hi, ht]
  unfold inInt64 mulInt64 wrapInt64
  refine ⟨by norm_num, rfl, rfl, ⟨by norm_num, by norm_num⟩, by norm_num⟩

end Rwlock
